import Mathlib

/-!
# Verification of the Polar web client's algorithmic core

Shallow embedding of two fragments of the repository:

* the diff-box allocator inside the `DiffStat` component
  (`src/clients/packages/polarkit/src/components/Issue/Reference.tsx`),
* the issue-reference renderers in the same file, and
* the email markdown override table and paywall cutoff
  (`src/clients/apps/web/src/components/Feed/Posts/EmailRender.tsx`).

JavaScript numbers are IEEE doubles; the allocator's
`Math.floor(additions / total / threshold)` with `threshold = 1 / 5` is
modelled as exact rational arithmetic, i.e. `Nat` floor division
`additions * 5 / total`.  At every concrete input used in a theorem below
the double-precision evaluation was checked by hand to coincide with the
exact value (both divisions are exact or round to the same floor there).
-/

/-! ## Diff-box allocator (`DiffStat`, Reference.tsx lines 269–297) -/

/-- `boxCount = 5` from the source. -/
def boxCount : Nat := 5

/-- The derived, ephemeral allocation `{additionBoxes, deletionBoxes, emptyBoxes}`.
Fields are `Int` because the source computes `emptyBoxes` by subtraction on
JavaScript numbers. -/
structure DiffAllocation where
  additionBoxes : Int
  deletionBoxes : Int
  emptyBoxes : Int
deriving Repr, DecidableEq

/-- Embedding of the box computation in `DiffStat`
(Reference.tsx lines 283–297).  `props.additions || 0` makes an absent
input count as `0`, modelled by `Option Nat` and `getD 0`.
`Math.floor (a / total / (1 / boxCount))` is `a * boxCount / total`
in exact arithmetic (`Nat` division is floor division). -/
def diffAllocate (additionsOpt deletionsOpt : Option Nat) : DiffAllocation :=
  let additions := additionsOpt.getD 0
  let deletions := deletionsOpt.getD 0
  let total := additions + deletions
  if total > 0 then
    { additionBoxes := (additions * boxCount / total : Nat)
      deletionBoxes := (deletions * boxCount / total : Nat)
      emptyBoxes := (boxCount : Int) - (additions * boxCount / total : Nat)
        - (deletions * boxCount / total : Nat) }
  else
    { additionBoxes := 0, deletionBoxes := 0, emptyBoxes := boxCount }

/-- The two floor shares never exceed the `boxCount` total. -/
lemma diff_shares_le (a d : Nat) (h : 0 < a + d) :
    a * boxCount / (a + d) + d * boxCount / (a + d) ≤ boxCount := by
  have hsum : (a * boxCount + d * boxCount) / (a + d) = boxCount := by
    rw [← Nat.add_mul, Nat.mul_div_cancel_left _ h]
  calc a * boxCount / (a + d) + d * boxCount / (a + d)
      ≤ (a * boxCount + d * boxCount) / (a + d) :=
        Nat.add_div_le_add_div _ _ _
    _ = boxCount := hsum

/-- C1: for every pair of (possibly absent) inputs the allocator returns
three non-negative integers whose sum is exactly 5. -/
theorem diffAllocate_sum_five (additionsOpt deletionsOpt : Option Nat) :
    0 ≤ (diffAllocate additionsOpt deletionsOpt).additionBoxes ∧
    0 ≤ (diffAllocate additionsOpt deletionsOpt).deletionBoxes ∧
    0 ≤ (diffAllocate additionsOpt deletionsOpt).emptyBoxes ∧
    (diffAllocate additionsOpt deletionsOpt).additionBoxes +
      (diffAllocate additionsOpt deletionsOpt).deletionBoxes +
      (diffAllocate additionsOpt deletionsOpt).emptyBoxes = 5 := by
  simp only [diffAllocate]
  set a := additionsOpt.getD 0 with ha
  set d := deletionsOpt.getD 0 with hd
  split_ifs with h
  · have hle := diff_shares_le a d h
    dsimp only
    generalize a * boxCount / (a + d) = A at hle ⊢
    generalize d * boxCount / (a + d) = D at hle ⊢
    simp only [boxCount] at hle ⊢
    omega
  · dsimp only
    simp only [boxCount]
    omega

/-- C3 counterexample: `diffAllocate(39, 0)` has total 39, so the additions
side is 100 % of the change and claims all five boxes, not one. -/
theorem diffAllocate_39_0_not_one :
    (diffAllocate (some 39) (some 0)).additionBoxes ≠ 1 ∧
    (diffAllocate (some 39) (some 0)).additionBoxes = 5 := by decide

/-- C3 (amended): with the percentages taken out of a total of 100,
39 % of additions yields one box and 40 % yields two. -/
theorem diffAllocate_39_and_40_percent :
    (diffAllocate (some 39) (some 61)).additionBoxes = 1 ∧
    (diffAllocate (some 40) (some 60)).additionBoxes = 2 := by decide

/-- C4 failing input: at `additions = 4, deletions = 1` both sides are
positive and neither is 100 % of the change, yet the five boxes are fully
claimed (`emptyBoxes = 0`), contradicting the gray-last-box rule stated in
the source's own comment.  (The double-precision evaluation agrees:
`4/5 = 0.8` and `0.8/0.2` divide exactly to `4`, and `0.2/0.2 = 1`.) -/
theorem diffAllocate_4_1_no_empty_box :
    0 < (4 : Nat) ∧ 0 < (1 : Nat) ∧
    diffAllocate (some 4) (some 1) =
      { additionBoxes := 4, deletionBoxes := 1, emptyBoxes := 0 } := by decide

/-- C5: a zero total (including both inputs absent) takes the explicit
all-empty branch and yields `{0, 0, 5}`. -/
theorem diffAllocate_zero_total :
    diffAllocate (some 0) (some 0) =
      { additionBoxes := 0, deletionBoxes := 0, emptyBoxes := 5 } ∧
    diffAllocate none none =
      { additionBoxes := 0, deletionBoxes := 0, emptyBoxes := 5 } := by decide

/-- C6: when additions account for 100 % of the change (`deletions = 0`,
`additions > 0`, also with the deletions input absent), the additions side
claims all five boxes. -/
theorem diffAllocate_all_additions (a : Nat) (h : 0 < a) :
    diffAllocate (some a) (some 0) =
      { additionBoxes := 5, deletionBoxes := 0, emptyBoxes := 0 } ∧
    diffAllocate (some a) none =
      { additionBoxes := 5, deletionBoxes := 0, emptyBoxes := 0 } := by
  have h5 : a * boxCount / (a + 0) = boxCount := by
    rw [Nat.add_zero, Nat.mul_div_cancel_left _ h]
  constructor <;>
  · simp only [diffAllocate, Option.getD_some, Option.getD_none]
    rw [if_pos (by omega : a + 0 > 0)]
    rw [h5]
    simp [boxCount, DiffAllocation.mk.injEq]

/-- C6 witness: `diffAllocate(100, 0) = {5, 0, 0}`. -/
theorem diffAllocate_all_additions_witness :
    diffAllocate (some 100) (some 0) =
      { additionBoxes := 5, deletionBoxes := 0, emptyBoxes := 0 } :=
  (diffAllocate_all_additions 100 (by decide)).1

/-! ## Issue reference renderers (Reference.tsx lines 17–267) -/

/-- Rendered node tree: fragments (`<>…</>`), text, and elements with
string-valued attributes — enough structure to embed the JSX these
components emit.  External leaf components (icons, `TimeAgo`) are opaque
elements named after the component. -/
inductive RNode where
  | fragment (children : List RNode)
  | text (s : String)
  | elem (tag : String) (attrs : List (String × String)) (children : List RNode)
deriving Repr

def GitBranchIcon : RNode := .elem "GitBranchIcon" [] []

def GitMergeIcon : RNode := .elem "GitMergeIcon" [] []

def GitPullRequestClosedIcon : RNode := .elem "GitPullRequestClosedIcon" [] []

def GitPullRequestIcon : RNode := .elem "GitPullRequestIcon" [] []

def TimeAgo (date : String) : RNode := .elem "TimeAgo" [("date", date)] []

/-- The `classNames` helper (imported from `polarkit/utils`, outside this
snapshot) joins its class strings with single spaces. -/
def classNames (xs : List String) : String := " ".intercalate xs

/-- The `githubPullReqeustUrl` helper (sic, imported from `polarkit/utils`,
outside this snapshot) builds the canonical GitHub pull-request URL. -/
def githubPullReqeustUrl (org repo : String) (number : Nat) : String :=
  "https://github.com/" ++ org ++ "/" ++ repo ++ "/pull/" ++ toString number

/-- JavaScript truthiness of an optional string: `undefined` and the empty
string are falsy. -/
def truthyStr : Option String → Bool
  | none => false
  | some s => s != ""

/-- The union of the three reference payload shapes
(`PullRequestReference`, `ExternalGitHubPullRequestReference`,
`ExternalGitHubCommitReference` from the generated API client, outside this
snapshot).  The components read payload fields as JavaScript property
accesses, so the union is one record; fields the source guards before use
are `Option`-valued. -/
structure ReferencePayload where
  organization_name : String
  repository_name : String
  sha : String
  branch_name : Option String
  author_avatar : String
  state : String
  number : Nat
  title : String
  merged_at : Option String
  closed_at : Option String
  created_at : String
  additions : Option Nat
  deletions : Option Nat
deriving Repr, DecidableEq

/-- `Box` (Reference.tsx lines 69–79). -/
def Box (children : List RNode) : RNode :=
  .fragment
    [.elem "div" [("className", "flex justify-between text-sm")]
      [.elem "div"
        [("className", "flex w-full items-center justify-between gap-2")]
        children]]

/-- `Avatar` (Reference.tsx lines 81–88). -/
def Avatar (src : String) : RNode :=
  .elem "img"
    [("className", "h-8 w-8 rounded-full border-2 border-white bg-gray-200"),
     ("src", src)] []

/-- `LeftSide` (Reference.tsx lines 172–176). -/
def LeftSide (children : List RNode) : RNode :=
  .elem "div" [("className", "flex flex-wrap items-center gap-2")] children

/-- `RightSide` (Reference.tsx lines 177–183). -/
def RightSide (children : List RNode) : RNode :=
  .elem "div"
    [("className", "flex flex-shrink-0 items-center justify-between gap-4")]
    children

/-- `IssueReferenceExternalGitHubCommit` (Reference.tsx lines 90–136).
The JSX renders the branch link under `commit.branch_name && …` and the
short-sha link under `!commit.branch_name && …`, both JavaScript
truthiness tests. -/
def IssueReferenceExternalGitHubCommit (orgName : String)
    (commit? : Option ReferencePayload) : RNode :=
  match commit? with
  | none => .fragment []
  | some commit =>
    let baseHref :=
      "https://github.com/" ++ commit.organization_name ++ "/" ++
        commit.repository_name
    let commitHref := baseHref ++ "/commit/" ++ commit.sha
    let isFork := orgName != commit.organization_name
    .fragment
      [LeftSide
        [GitBranchIcon,
         .elem "span" [("className", "inline-flex space-x-2")]
           ((if truthyStr commit.branch_name then
               [.elem "a"
                 [("className", "font-mono"),
                  ("href", baseHref ++ "/tree/" ++ commit.branch_name.getD "")]
                 ((if isFork then
                     [.text (commit.organization_name ++ "/" ++
                       commit.repository_name ++ "/")]
                   else []) ++
                  [.text (commit.branch_name.getD "")])]
             else []) ++
            (if !truthyStr commit.branch_name then
               [.elem "a"
                 [("className", "font-mono text-gray-500"),
                  ("href", commitHref)]
                 [.text (commit.sha.take 6)]]
             else []))],
       RightSide [Avatar commit.author_avatar]]

/-- `IssueReferenceExternalGitHubPullRequest` (Reference.tsx lines 138–170). -/
def IssueReferenceExternalGitHubPullRequest
    (pr? : Option ReferencePayload) : RNode :=
  match pr? with
  | none => .fragment []
  | some pr =>
    let isMerged := pr.state == "closed"
    let href :=
      githubPullReqeustUrl pr.organization_name pr.repository_name pr.number
    .fragment
      [LeftSide
        ((if isMerged then [GitMergeIcon] else []) ++
         (if !isMerged then [GitPullRequestIcon] else []) ++
         [.elem "a" [("href", href), ("className", "font-medium")]
            [.text pr.title],
          .elem "a" [("href", href)]
            [.text (pr.organization_name ++ "/" ++ pr.repository_name ++
              "#" ++ toString pr.number)]]),
       RightSide [Avatar pr.author_avatar]]

/-- `PullRequestFormatting` (Reference.tsx lines 185–190). -/
structure PullRequestFormatting where
  label : String
  timestamp : String
  titleClasses : String
  iconClasses : String
deriving Repr, DecidableEq

/-- `generateDiffBox` inside `DiffStat` (Reference.tsx lines 299–316). -/
def generateDiffBox (className : String) (boxes : Int) : RNode :=
  if boxes ≤ 0 then .fragment []
  else
    .fragment
      (List.replicate boxes.toNat
        (.elem "span"
          [("className",
            classNames [className, "ml-0.5 inline-block h-2.5 w-2.5 border"])]
          [.text " "]))

/-- The `DiffStat` component's JSX (Reference.tsx lines 318–328), painting
the allocation computed by `diffAllocate`.  `{props.additions}` renders
nothing when the value is `undefined`. -/
def DiffStat (additions deletions : Option Nat) : RNode :=
  let alloc := diffAllocate additions deletions
  .elem "div"
    [("className", "hidden flex-shrink-0 flex-nowrap items-center gap-2 lg:flex")]
    [.elem "span" [("className", "text-green-400")]
       [.text ("+" ++ (additions.map toString).getD "")],
     .elem "span" [("className", "text-red-400")]
       [.text ("-" ++ (deletions.map toString).getD "")],
     .elem "span" []
       [generateDiffBox "divide-green-300 bg-green-200" alloc.additionBoxes,
        generateDiffBox "divide-red-300 bg-red-200" alloc.deletionBoxes,
        generateDiffBox "divide-gray-300 bg-gray-200" alloc.emptyBoxes]]

/-- `IssueReferencePullRequest` (Reference.tsx lines 192–267).  The source's
merged test is `pr.state === 'closed' && pr.merged_at` (truthiness), and
`formatting.timestamp && <TimeAgo …>` again tests truthiness. -/
def IssueReferencePullRequest (orgName repoName : String)
    (pr? : Option ReferencePayload) : RNode :=
  match pr? with
  | none => .fragment []
  | some pr =>
    let mergedCase := pr.state == "closed" && truthyStr pr.merged_at
    let isMerged := mergedCase
    let isClosed := !mergedCase && pr.state == "closed"
    let isOpen := !mergedCase && !(pr.state == "closed")
    let formatting : PullRequestFormatting :=
      if mergedCase then
        { label := "merged", timestamp := pr.merged_at.getD ""
          titleClasses := ""
          iconClasses := "bg-purple-100 border-purple-200" }
      else if pr.state == "closed" then
        { label := "closed", timestamp := pr.closed_at.getD ""
          titleClasses := ""
          iconClasses := "bg-red-100 border-red-200" }
      else
        { label := "opened", timestamp := pr.created_at
          titleClasses := ""
          iconClasses := "bg-green-100 border-green-200" }
    let href := githubPullReqeustUrl orgName repoName pr.number
    .fragment
      [LeftSide
        [.elem "span"
           [("className",
             classNames [formatting.iconClasses, "rounded-lg border p-1"])]
           ((if isMerged then [GitMergeIcon] else []) ++
            (if isClosed then [GitPullRequestClosedIcon] else []) ++
            (if isOpen then [GitPullRequestIcon] else [])),
         .elem "a"
           [("href", href),
            ("className", classNames [formatting.titleClasses, "font-medium"])]
           [.text pr.title],
         .elem "span"
           [("className", "overflow-hidden whitespace-pre text-sm text-gray-500")]
           ([.text ("#" ++ toString pr.number ++ " " ++ formatting.label ++ " ")] ++
            (if formatting.timestamp != "" then [TimeAgo formatting.timestamp]
             else []))],
       RightSide
        [DiffStat pr.additions pr.deletions,
         Avatar pr.author_avatar]]

/-- `IssueReferenceType` is declared in the generated API client, outside
this snapshot; the component compares against its three members, and
`UNKNOWN` stands for any other wire value. -/
inductive IssueReferenceType where
  | PULL_REQUEST
  | EXTERNAL_GITHUB_COMMIT
  | EXTERNAL_GITHUB_PULL_REQUEST
  | UNKNOWN (tag : String)
deriving Repr, DecidableEq

/-- `IssueReferenceRead` as used by the component: a type tag plus a
payload that the source casts (unchecked) to the matching payload shape. -/
structure IssueReferenceRead where
  type : IssueReferenceType
  payload : ReferencePayload
deriving Repr, DecidableEq

/-- `IssueReference` (Reference.tsx lines 17–65): three guarded branches,
then `return <></>`. -/
def IssueReference (orgName repoName : String)
    (reference? : Option IssueReferenceRead) : RNode :=
  match reference? with
  | none => .fragment []
  | some reference =>
    if reference.type = .PULL_REQUEST then
      Box [IssueReferencePullRequest orgName repoName (some reference.payload)]
    else if reference.type = .EXTERNAL_GITHUB_COMMIT then
      Box [IssueReferenceExternalGitHubCommit orgName (some reference.payload)]
    else if reference.type = .EXTERNAL_GITHUB_PULL_REQUEST then
      Box [IssueReferenceExternalGitHubPullRequest (some reference.payload)]
    else
      .fragment []

/-- A concrete reference payload used to instantiate witnesses. -/
def samplePayload : ReferencePayload :=
  { organization_name := "acme"
    repository_name := "widgets"
    sha := "0123456789abcdef"
    branch_name := none
    author_avatar := "https://avatars.example/u/1"
    state := "open"
    number := 7
    title := "Add widgets"
    merged_at := none
    closed_at := none
    created_at := "2023-11-01T00:00:00Z"
    additions := some 10
    deletions := some 2 }

def mainBranchCommit : ReferencePayload :=
  { samplePayload with branch_name := some "main" }

def emptyBranchCommit : ReferencePayload :=
  { samplePayload with branch_name := some "" }

/-- C9 (amended): a commit reference with no `branch_name` renders the
first six characters of the sha as a link to the commit URL (and the
renderer is a total function, so it never throws); with a present,
non-empty `branch_name` the branch link is rendered instead. -/
theorem commitReference_branch_fallback (orgName : String)
    (c : ReferencePayload) :
    (c.branch_name = none →
      IssueReferenceExternalGitHubCommit orgName (some c) =
        .fragment
          [LeftSide
            [GitBranchIcon,
             .elem "span" [("className", "inline-flex space-x-2")]
               [.elem "a"
                 [("className", "font-mono text-gray-500"),
                  ("href", "https://github.com/" ++ c.organization_name ++
                    "/" ++ c.repository_name ++ "/commit/" ++ c.sha)]
                 [.text (c.sha.take 6)]]],
           RightSide [Avatar c.author_avatar]]) ∧
    (∀ b, c.branch_name = some b → b ≠ "" →
      IssueReferenceExternalGitHubCommit orgName (some c) =
        .fragment
          [LeftSide
            [GitBranchIcon,
             .elem "span" [("className", "inline-flex space-x-2")]
               [.elem "a"
                 [("className", "font-mono"),
                  ("href", "https://github.com/" ++ c.organization_name ++
                    "/" ++ c.repository_name ++ "/tree/" ++ b)]
                 ((if orgName != c.organization_name then
                     [.text (c.organization_name ++ "/" ++
                       c.repository_name ++ "/")]
                   else []) ++
                  [.text b])]],
           RightSide [Avatar c.author_avatar]]) := by
  constructor
  · intro h
    simp [IssueReferenceExternalGitHubCommit, truthyStr, h]
  · intro b hb hbne
    simp [IssueReferenceExternalGitHubCommit, truthyStr, hb, hbne]

/-- C9 witness: concrete commits with `branch_name` absent (sha fallback)
and `branch_name = "main"` (branch link). -/
theorem commitReference_branch_fallback_witness :
    IssueReferenceExternalGitHubCommit "acme" (some samplePayload) =
      .fragment
        [LeftSide
          [GitBranchIcon,
           .elem "span" [("className", "inline-flex space-x-2")]
             [.elem "a"
               [("className", "font-mono text-gray-500"),
                ("href", "https://github.com/acme/widgets/commit/0123456789abcdef")]
               [.text "012345"]]],
         RightSide [Avatar "https://avatars.example/u/1"]] ∧
    IssueReferenceExternalGitHubCommit "acme" (some mainBranchCommit) =
      .fragment
        [LeftSide
          [GitBranchIcon,
           .elem "span" [("className", "inline-flex space-x-2")]
             [.elem "a"
               [("className", "font-mono"),
                ("href", "https://github.com/acme/widgets/tree/main")]
               [.text "main"]]],
         RightSide [Avatar "https://avatars.example/u/1"]] :=
  ⟨(commitReference_branch_fallback "acme" samplePayload).1 rfl,
   (commitReference_branch_fallback "acme" mainBranchCommit).2 "main" rfl
     (by decide)⟩

/-- C9 counterexample: a commit reference whose `branch_name` is present
but the empty string is falsy in JavaScript, so the component shows the
short-sha fallback, not the branch link the claim promises for every
present `branch_name`. -/
theorem commitReference_empty_branch_counterexample :
    emptyBranchCommit.branch_name = some "" ∧
    IssueReferenceExternalGitHubCommit "acme" (some emptyBranchCommit) =
      .fragment
        [LeftSide
          [GitBranchIcon,
           .elem "span" [("className", "inline-flex space-x-2")]
             [.elem "a"
               [("className", "font-mono text-gray-500"),
                ("href", "https://github.com/acme/widgets/commit/0123456789abcdef")]
               [.text "012345"]]],
         RightSide [Avatar "https://avatars.example/u/1"]] :=
  ⟨rfl, rfl⟩

/-- C10: a null reference, or a reference whose type is none of the three
handled kinds, renders the empty fragment — no partial box, and the
component is a total function. -/
theorem issueReference_unknown_renders_empty (orgName repoName : String)
    (reference? : Option IssueReferenceRead)
    (h : ∀ r, reference? = some r →
      r.type ≠ IssueReferenceType.PULL_REQUEST ∧
      r.type ≠ IssueReferenceType.EXTERNAL_GITHUB_COMMIT ∧
      r.type ≠ IssueReferenceType.EXTERNAL_GITHUB_PULL_REQUEST) :
    IssueReference orgName repoName reference? = .fragment [] := by
  cases reference? with
  | none => rfl
  | some r =>
    obtain ⟨h1, h2, h3⟩ := h r rfl
    simp only [IssueReference]
    rw [if_neg h1, if_neg h2, if_neg h3]

/-- C10 witness: a concrete reference with an unrecognized type value
renders the empty fragment. -/
theorem issueReference_unknown_witness :
    IssueReference "acme" "widgets"
        (some { type := .UNKNOWN "discussion", payload := samplePayload }) =
      .fragment [] := by
  apply issueReference_unknown_renders_empty
  intro r hr
  injection hr with h
  subst h
  exact ⟨by decide, by decide, by decide⟩

/-! ## Email markdown overrides (EmailRender.tsx lines 16–43) -/

/-- The child of a `pre` block as `markdown-to-jsx` hands it to the
override: an element `type` plus the two props the source reads,
`className` (possibly undefined) and `children` (the code text). -/
structure PreChild where
  type : String
  className : Option String
  children : String
deriving Repr, DecidableEq

/-- The argument object (`args: any` in the source) passed to an override
render function; only the fields the email overrides read are modelled. -/
structure OverrideArgs where
  children : PreChild
  options : List String
deriving Repr, DecidableEq

/-- Output of an email override render function.  The imported components
(`EmailMermaid`, `EmailSyntaxHighlighter`, `Poll`, `Paywall`, `Embed`,
`Iframe` — all outside this snapshot) are opaque nodes carrying exactly
the props the source passes them; `emailCodeHighlighter` stands for
`EmailSyntaxHighlighter` and receives the computed language plus the
spread child props. -/
inductive EmailNode where
  | empty
  | emailMermaid (graphDefinition : String)
  | emailCodeHighlighter (language : Option String) (className : Option String)
      (code : String)
  | pollNode (args : OverrideArgs)
  | paywallNode (args : OverrideArgs)
  | embedNode (args : OverrideArgs)
  | iframeNode (args : OverrideArgs)
deriving Repr, DecidableEq

/-- JavaScript `s.replace(pat, "")` with a string pattern removes the
first occurrence of `pat` only (and leaves `s` unchanged when `pat` does
not occur). -/
def removeFirstAux (pat : List Char) : List Char → List Char
  | [] => []
  | c :: rest =>
    if pat.isPrefixOf (c :: rest) then (c :: rest).drop pat.length
    else c :: removeFirstAux pat rest

def jsRemoveFirst (pat s : String) : String :=
  ⟨removeFirstAux pat.toList s.toList⟩

/-- The `poll` override (EmailRender.tsx line 22): `Poll` with the static
`EmailPoll` renderer. -/
def pollOverride (args : OverrideArgs) : EmailNode := .pollNode args

/-- The `paywall` override (EmailRender.tsx line 23). -/
def paywallOverride (args : OverrideArgs) : EmailNode := .paywallNode args

/-- The `SubscribeNow` override (EmailRender.tsx line 24):
`() => <></>` — "do not render". -/
def SubscribeNow (_args : OverrideArgs) : EmailNode := .empty

/-- The `embed` override (EmailRender.tsx line 25). -/
def embedOverride (args : OverrideArgs) : EmailNode := .embedNode args

/-- The `iframe` override (EmailRender.tsx line 26). -/
def iframeOverride (args : OverrideArgs) : EmailNode := .iframeNode args

/-- The `pre` override (EmailRender.tsx lines 27–41): a `code` child's
`className?.replace('lang-', '')` gives the language; `mermaid` renders
the static diagram, any other language the email highlighter, and a
non-`code` child renders nothing. -/
def preOverride (args : OverrideArgs) : EmailNode :=
  if args.children.type == "code" then
    let language := args.children.className.map (jsRemoveFirst "lang-")
    if language == some "mermaid" then
      .emailMermaid args.children.children
    else
      .emailCodeHighlighter language args.children.className
        args.children.children
  else
    .empty

/-- The email override table `opts.overrides` (EmailRender.tsx lines
18–42): the base table `markdownOpts.overrides` (from `./markdown`,
outside this snapshot) is spread first and the six email entries are
written after it, so at those six keys the result does not depend on the
base table. -/
def emailOverrides (base : String → Option (OverrideArgs → EmailNode)) :
    String → Option (OverrideArgs → EmailNode) :=
  fun tag =>
    if tag == "poll" then some pollOverride
    else if tag == "paywall" then some paywallOverride
    else if tag == "SubscribeNow" then some SubscribeNow
    else if tag == "embed" then some embedOverride
    else if tag == "iframe" then some iframeOverride
    else if tag == "pre" then some preOverride
    else base tag

/-- C7: whatever the base table contributes, the function the email table
registers for the `SubscribeNow` tag renders empty output on every input. -/
theorem subscribeNow_renders_empty
    (base : String → Option (OverrideArgs → EmailNode))
    (args : OverrideArgs) :
    ∃ f, emailOverrides base "SubscribeNow" = some f ∧ f args = .empty :=
  ⟨SubscribeNow, rfl, rfl⟩

/-- C8: the `pre` override's case analysis — a `code` child whose language
class resolves to `mermaid` renders the static mermaid diagram, a `code`
child with any other language renders the email highlighter with that
language and the child props, and a non-`code` child renders empty. -/
theorem preOverride_cases (args : OverrideArgs) :
    (args.children.type = "code" →
      args.children.className.map (jsRemoveFirst "lang-") = some "mermaid" →
      preOverride args = .emailMermaid args.children.children) ∧
    (args.children.type = "code" →
      args.children.className.map (jsRemoveFirst "lang-") ≠ some "mermaid" →
      preOverride args =
        .emailCodeHighlighter
          (args.children.className.map (jsRemoveFirst "lang-"))
          args.children.className args.children.children) ∧
    (args.children.type ≠ "code" → preOverride args = .empty) := by
  refine ⟨fun h1 h2 => ?_, fun h1 h2 => ?_, fun h1 => ?_⟩
  · simp [preOverride, h1, h2]
  · simp [preOverride, h1, h2]
  · simp [preOverride, h1]

def mermaidArgs : OverrideArgs :=
  { children :=
      { type := "code", className := some "lang-mermaid"
        children := "graph TD; A-->B" }
    options := [] }

def tsCodeArgs : OverrideArgs :=
  { children :=
      { type := "code", className := some "lang-typescript"
        children := "const x = 1" }
    options := [] }

def plainPreArgs : OverrideArgs :=
  { children := { type := "span", className := none, children := "hello" }
    options := [] }

/-- C8 witness: the three branches at concrete `pre` children. -/
theorem preOverride_cases_witness :
    preOverride mermaidArgs = .emailMermaid "graph TD; A-->B" ∧
    preOverride tsCodeArgs =
      .emailCodeHighlighter (some "typescript") (some "lang-typescript")
        "const x = 1" ∧
    preOverride plainPreArgs = .empty :=
  ⟨(preOverride_cases mermaidArgs).1 rfl (by decide),
   (preOverride_cases tsCodeArgs).2.1 rfl (by decide),
   (preOverride_cases plainPreArgs).2.2 (by decide)⟩

/-! ## Paywall cutoff (`EmailRender`, EmailRender.tsx lines 45–61)

`EmailRender` hands `markdown-to-jsx` a `createElement` built by
`wrapStrictCreateElement({ article })`.  That wrapper lives in
`src/clients/apps/web/src/components/Feed/Posts/markdown.tsx`, which is
not part of this snapshot, so it is modelled from the spec below. -/

/-- A node of the markdown output together with its source position in the
article body, as the element-creation hook sees it. -/
structure PositionedNode where
  position : Nat
  node : RNode
deriving Repr

/-- Modelled from the spec: the paywall-prompt placeholder node that
`wrapStrictCreateElement` (markdown.tsx, missing from this snapshot)
substitutes for paywalled content. -/
def paywallPlaceholder : RNode := .elem "PaywallPrompt" [] []

/-- Modelled from the spec: `wrapStrictCreateElement` (markdown.tsx,
missing from this snapshot).  "Before any node is materialized, the
renderer consults the paywall boundary": a pre-pass fixes the marker's
cutoff position once per render pass, and construction then renders every
node positioned before the cutoff unchanged while the whole suffix of
nodes positioned at or after it becomes one single placeholder.  With no
marker, or with `showPaywalledContent = true`, every node renders
unchanged. -/
def strictCreateElement (markerPos : Option Nat)
    (showPaywalledContent : Bool) (nodes : List PositionedNode) :
    List RNode :=
  match markerPos, showPaywalledContent with
  | some cutoff, false =>
    ((nodes.filter (fun pn => decide (pn.position < cutoff))).map
      PositionedNode.node) ++
      (if nodes.any (fun pn => decide (cutoff ≤ pn.position)) then
        [paywallPlaceholder]
      else [])
  | _, _ => nodes.map PositionedNode.node

/-- Modelled from the spec: the `RenderArticle` fields the email renderer
consumes — the markdown body and the paywall boundary, i.e. the source
position of the paywall marker embedded in the body text (`none` when the
body contains no marker). -/
structure RenderArticle where
  body : String
  paywallMarkerAt : Option Nat
deriving Repr

/-- `EmailRender` (EmailRender.tsx lines 45–61): renders the article body
through `Markdown` with the email `opts` and
`createElement: wrapStrictCreateElement({ article })`; no
`showPaywalledContent` is passed, so the wrapper uses its default
`false`.  The markdown parse itself is the external `markdown-to-jsx`
library, which enters the model as the list of source-positioned nodes it
produced for `article.body`. -/
def EmailRender (article : RenderArticle)
    (parsed : List PositionedNode) : List RNode :=
  strictCreateElement article.paywallMarkerAt false parsed

/-- C2: when the body carries a paywall marker (and the email path's
`showPaywalledContent` is `false`), every node positioned before the
marker renders unchanged and the nodes positioned after it are replaced
by exactly one paywall placeholder — a single contiguous placeholder, not
one per node. -/
theorem emailRender_paywall_cutoff (article : RenderArticle)
    (parsed : List PositionedNode) (cutoff : Nat)
    (hm : article.paywallMarkerAt = some cutoff)
    (hafter : ∃ pn ∈ parsed, cutoff ≤ pn.position) :
    EmailRender article parsed =
      ((parsed.filter (fun pn => decide (pn.position < cutoff))).map
        PositionedNode.node) ++ [paywallPlaceholder] := by
  obtain ⟨pn, hmem, hle⟩ := hafter
  have hany : parsed.any (fun pn => decide (cutoff ≤ pn.position)) = true :=
    List.any_eq_true.mpr ⟨pn, hmem, by simpa using hle⟩
  simp [EmailRender, strictCreateElement, hm, hany]

def sampleArticle : RenderArticle :=
  { body := "intro <Paywall></Paywall> secret more"
    paywallMarkerAt := some 6 }

def sampleParsed : List PositionedNode :=
  [{ position := 0, node := .elem "p" [] [.text "intro"] },
   { position := 26, node := .elem "p" [] [.text "secret"] },
   { position := 33, node := .elem "p" [] [.text "more"] }]

/-- C2 witness: a marker at position 6 with one node before it and two
nodes after it renders the before-node unchanged followed by one single
placeholder. -/
theorem emailRender_paywall_cutoff_witness :
    EmailRender sampleArticle sampleParsed =
      [RNode.elem "p" [] [.text "intro"], paywallPlaceholder] :=
  emailRender_paywall_cutoff sampleArticle sampleParsed 6 rfl
    ⟨{ position := 26, node := .elem "p" [] [.text "secret"] },
     by simp [sampleParsed], by decide⟩
